import Mathlib

/-!
# TrackFusionMcp — verification of the request/retry/error-normalization core

A shallow embedding of `src/client.ts` (`TrackfusionClient`): the retry loop
of `request`, the error-message normalization, the query-string builder
`buildQs`, constructor config normalization, and the JSON serialization of
PATCH bodies.  Definitions are translated from the TypeScript source;
theorems settle the specification's claims about them.
-/

namespace TrackFusion

/-! ## JavaScript value model

A model of the JSON values the client handles (`res.json()` results and
request bodies).  Numbers are modelled as integers: every numeric value the
client's contracts mention is integral. -/

inductive JsValue where
  | null : JsValue
  | bool : Bool → JsValue
  | num : Int → JsValue
  | str : String → JsValue
  | obj : List (String × JsValue) → JsValue
  | arr : List JsValue → JsValue

/-- JavaScript truthiness of a value, as used by `body.error || fallback`
in `client.ts` line 590.  (`NaN` does not arise in the integer model.) -/
def jsTruthy : JsValue → Bool
  | .null => false
  | .bool b => b
  | .num n => n != 0
  | .str s => s != ""
  | .obj _ => true
  | .arr _ => true

/-- Property lookup on an object (`body.error`): `none` models JavaScript
`undefined` (missing key, or access on a non-object primitive; the
`null`-body `TypeError` corner of property access on `null` is not modelled —
no claim exercises a non-object error body). -/
def jsGet (v : JsValue) (k : String) : Option JsValue :=
  match v with
  | .obj fields => lookupField fields k
  | _ => none
where
  lookupField : List (String × JsValue) → String → Option JsValue
  | [], _ => none
  | (k', v') :: rest, k => if k' = k then some v' else lookupField rest k

mutual

/-- JavaScript `String(...)` coercion, as applied by `new Error(body.error)`
when the `error` field is truthy.  Array elements that are `null` render as
`"null"` here whereas JavaScript's `Array.prototype.join` renders them as
`""`; this corner is not exercised by any theorem. -/
def jsToErrString : JsValue → String
  | .null => "null"
  | .bool b => if b then "true" else "false"
  | .num n => toString n
  | .str s => s
  | .obj _ => "[object Object]"
  | .arr l => String.intercalate "," (jsArrStrings l)

/-- Renders each element of an array for `jsToErrString`. -/
def jsArrStrings : List JsValue → List String
  | [] => []
  | v :: vs => jsToErrString v :: jsArrStrings vs

end

/-! ## Substring matching

`String.prototype.includes`, used by the retry classifier at line 600 of
`client.ts`.  All strings involved are ASCII, so code-unit and scalar-value
indexing agree. -/

/-- Prefix test: `hasPrefixChars l p` holds when `p` is a prefix of `l`. -/
def hasPrefixChars : List Char → List Char → Bool
  | _, [] => true
  | [], _ :: _ => false
  | c :: cs, p :: ps => c == p && hasPrefixChars cs ps

/-- Substring test: `hasSubChars l p` holds when `p` occurs contiguously inside `l`. -/
def hasSubChars : List Char → List Char → Bool
  | [], pat => pat.isEmpty
  | c :: cs, pat => hasPrefixChars (c :: cs) pat || hasSubChars cs pat

/-- JavaScript `s.includes(pat)`. -/
def strIncludes (s pat : String) : Bool :=
  hasSubChars s.data pat.data

/-! ## The request executor (`TrackfusionClient.request`, client.ts 564–610)

A logical call is run against a *script*: the list of what each successive
network attempt (`fetch`) does.  An attempt either resolves to an HTTP
response — whose `res.json()` in turn either parses or rejects — or rejects
with an exception carrying a `name` and a `message` (transport failure, or
the abort produced by `AbortSignal.timeout`). -/

/-- Source constant `MAX_RETRIES = 1` (client.ts line 10). -/
def MAX_RETRIES : Nat := 1

/-- Source constant `RETRY_DELAY_MS = 2_000` (client.ts line 9). -/
def RETRY_DELAY_MS : Nat := 2000

/-- Source constant `DEFAULT_TIMEOUT_MS = 30_000` (client.ts line 8). -/
def DEFAULT_TIMEOUT_MS : Nat := 30000

/-- The result of `res.json()` on a response: a parsed value, or a rejection
(with the platform parse error's `name` and `message`). -/
inductive BodyRead where
  | parsed : JsValue → BodyRead
  | parseError : String → String → BodyRead

/-- What one `fetch` call does: resolve to an HTTP response
(status, statusText, body read) or reject with an exception. -/
inductive FetchOutcome where
  | http : Nat → String → BodyRead → FetchOutcome
  | exn : (name : String) → (message : String) → FetchOutcome

/-- The observable outcome of a logical `request` call: the parsed JSON body
of a 2xx response, or a thrown error's `name` and `message`. -/
inductive ReqResult where
  | success : JsValue → ReqResult
  | failure : (name : String) → (message : String) → ReqResult

/-- A call's result together with how many network attempts it performed and
the total retry delay (ms) it slept. -/
structure ReqTrace where
  result : ReqResult
  attempts : Nat
  delayMs : Nat

/-- The synthesized fallback message `"HTTP <status>: <statusText>"` of
client.ts line 590. -/
def httpFallback (status : Nat) (statusText : String) : String :=
  "HTTP " ++ toString status ++ ": " ++ statusText

/-- The message of the error thrown at client.ts line 590:
`new Error(body.error || "HTTP <status>: <statusText>")` — the body's `error`
field when *truthy*, else the synthesized fallback. -/
def errMsgOfBody (body : JsValue) (status : Nat) (statusText : String) : String :=
  match jsGet body "error" with
  | some v => if jsTruthy v then jsToErrString v else httpFallback status statusText
  | none => httpFallback status statusText

/-- Error-body read `await res.json().catch(() => ({}))` (client.ts line 589):
a body that fails to parse is replaced by the empty object. -/
def errorBodyValue : BodyRead → JsValue
  | .parsed j => j
  | .parseError _ _ => JsValue.obj []

/-- The error message a non-ok response with body read `b` produces. -/
def httpErrorMessage (status : Nat) (statusText : String) (b : BodyRead) : String :=
  errMsgOfBody (errorBodyValue b) status statusText

/-- The retry guard of the `catch` block (client.ts 598–604): retry iff the
error's name is not `AbortError`, retries remain, and the message contains
`"fetch failed"` or `"ECONNREFUSED"`. -/
def retryableCatch (name message : String) (attempt : Nat) : Bool :=
  name != "AbortError" && decide (attempt < MAX_RETRIES) &&
    (strIncludes message "fetch failed" || strIncludes message "ECONNREFUSED")

/-- How the `try` body of one loop iteration classifies this attempt. -/
inductive AttemptStep where
  | retry503 : AttemptStep
  | ok : JsValue → AttemptStep
  | okFail : (name : String) → (message : String) → AttemptStep
  | caught : (name : String) → (message : String) → AttemptStep

/-- One iteration of the `try` body (client.ts 579–593) at loop counter
`attempt`: a 503 with retries remaining `continue`s; a 2xx returns
`res.json()` *without awaiting it* (line 593), so its parsed body on
success, and on a parse rejection an error that escapes the `try`/`catch`
(`okFail` — the returned promise is adopted outside the `try`, so this
rejection can never reach the retry guard); any other response throws
`new Error(body.error || fallback)` — an `Error`, so its `name` is
`"Error"`; a `fetch` rejection is rethrown as caught. -/
def tryAttempt (o : FetchOutcome) (attempt : Nat) : AttemptStep :=
  match o with
  | .exn n m => .caught n m
  | .http status statusText body =>
    if status = 503 ∧ attempt < MAX_RETRIES then .retry503
    else if 200 ≤ status ∧ status < 300 then
      match body with
      | .parsed j => .ok j
      | .parseError n m => .okFail n m
    else .caught "Error" (httpErrorMessage status statusText body)

/-- Accounts a retried attempt: one more network attempt and one
`RETRY_DELAY_MS` sleep before the recorded remainder. -/
def bump (t : ReqTrace) : ReqTrace :=
  ⟨t.result, t.attempts + 1, t.delayMs + RETRY_DELAY_MS⟩

/-- The retry loop of `request` (client.ts 578–607), consuming one scripted
outcome per attempt.  An exhausted script models the dead code after the
loop (line 609), which is unreachable for adequate scripts. -/
def requestAux : List FetchOutcome → Nat → ReqTrace
  | [], _ => ⟨.failure "ModelError" "script exhausted", 0, 0⟩
  | o :: rest, attempt =>
    match tryAttempt o attempt with
    | .retry503 => bump (requestAux rest (attempt + 1))
    | .ok j => ⟨.success j, 1, 0⟩
    | .okFail name message => ⟨.failure name message, 1, 0⟩
    | .caught name message =>
      if retryableCatch name message attempt then bump (requestAux rest (attempt + 1))
      else ⟨.failure name message, 1, 0⟩

/-- The executor `TrackfusionClient.request` run against a script of fetch
outcomes (the loop starts at `attempt = 0`). -/
def request (script : List FetchOutcome) : ReqTrace :=
  requestAux script 0

/-! ## The timed request executor

In `request`, `AbortSignal.timeout(this.timeoutMs)` is evaluated *once*, at
line 573, before the retry loop, and the resulting `fetchOptions` object —
carrying that one signal — is passed to every `fetch` of the loop.  The
abort deadline is therefore the absolute time `timeoutMs` measured from the
start of the call, shared by both attempts; the `setTimeout` retry delay is
not governed by the signal and keeps running past the deadline.

The timed model makes this observable: each scripted outcome carries the
duration its `fetch` would take.  A `fetch` whose completion would land past
the deadline is aborted at the deadline (or rejects immediately when called
with an already-fired signal) with the platform timeout rejection. -/

/-- A scripted attempt with the duration (ms) its `fetch` would run. -/
structure TimedOutcome where
  dur : Nat
  outcome : FetchOutcome

/-- The platform rejection produced when the `AbortSignal.timeout` signal
fires during (or before) a `fetch`: a `DOMException` named `TimeoutError`. -/
def timeoutExn : FetchOutcome :=
  .exn "TimeoutError" "The operation was aborted due to timeout"

/-- Runs one `fetch` started at absolute time `t` under the shared absolute
`deadline`: if it would complete by the deadline it yields its scripted
outcome at its completion time, otherwise it is aborted (at the deadline, or
immediately when the signal already fired). -/
def effectiveOutcome (deadline t : Nat) (o : TimedOutcome) : FetchOutcome × Nat :=
  if t + o.dur ≤ deadline then (o.outcome, t + o.dur) else (timeoutExn, max t deadline)

/-- The retry loop of `request` under the timed semantics: same control flow
as `requestAux`, with each attempt's outcome filtered through the shared
abort deadline and the clock advanced by `RETRY_DELAY_MS` before a retry. -/
def timedAux : List TimedOutcome → Nat → Nat → Nat → ReqTrace
  | [], _, _, _ => ⟨.failure "ModelError" "script exhausted", 0, 0⟩
  | o :: rest, attempt, t, deadline =>
    let eff := effectiveOutcome deadline t o
    match tryAttempt eff.1 attempt with
    | .retry503 => bump (timedAux rest (attempt + 1) (eff.2 + RETRY_DELAY_MS) deadline)
    | .ok j => ⟨.success j, 1, 0⟩
    | .okFail name message => ⟨.failure name message, 1, 0⟩
    | .caught name message =>
      if retryableCatch name message attempt then
        bump (timedAux rest (attempt + 1) (eff.2 + RETRY_DELAY_MS) deadline)
      else ⟨.failure name message, 1, 0⟩

/-- The timed executor: deadline `timeoutMs` fixed at call start (client.ts
line 573), clock starting at `0`, loop starting at `attempt = 0`. -/
def timedRequest (timeoutMs : Nat) (script : List TimedOutcome) : ReqTrace :=
  timedAux script 0 0 timeoutMs

/-- Modelled from the spec: the per-attempt-budget semantics claim C9
describes — "each attempt (including the retry attempt) is granted the full
`timeoutMs` budget" — so an attempt is aborted exactly when its own duration
exceeds `timeoutMs`, with no shared clock.  Stated only to be compared with
`timedAux`, which is what the source does. -/
def perAttemptAux : List TimedOutcome → Nat → Nat → ReqTrace
  | [], _, _ => ⟨.failure "ModelError" "script exhausted", 0, 0⟩
  | o :: rest, attempt, budget =>
    let eff := if o.dur ≤ budget then o.outcome else timeoutExn
    match tryAttempt eff attempt with
    | .retry503 => bump (perAttemptAux rest (attempt + 1) budget)
    | .ok j => ⟨.success j, 1, 0⟩
    | .okFail name message => ⟨.failure name message, 1, 0⟩
    | .caught name message =>
      if retryableCatch name message attempt then
        bump (perAttemptAux rest (attempt + 1) budget)
      else ⟨.failure name message, 1, 0⟩

/-- Modelled from the spec: the executor under the per-attempt-budget
semantics of claim C9 (each attempt gets the full `timeoutMs`). -/
def perAttemptRequest (timeoutMs : Nat) (script : List TimedOutcome) : ReqTrace :=
  perAttemptAux script 0 timeoutMs

/-! ## Query-string construction (`TrackfusionClient.buildQs`, client.ts 612–616)

Parameter maps are modelled as association lists in insertion order
(`Object.entries` enumerates string keys in insertion order); `none` models
a value that is `undefined`. -/

/-- A defined query-parameter value: `string | number | boolean`. -/
inductive QsVal where
  | s : String → QsVal
  | n : Int → QsVal
  | b : Bool → QsVal

/-- JavaScript `String(v)` for a query-parameter value. -/
def qsValToString : QsVal → String
  | .s v => v
  | .n v => toString v
  | .b v => if v then "true" else "false"

/-- Hexadecimal digit in uppercase, as `encodeURIComponent` produces. -/
def hexDigit (n : Nat) : Char :=
  if n < 10 then Char.ofNat ('0'.toNat + n) else Char.ofNat ('A'.toNat + n - 10)

/-- Percent-encodes one byte, e.g. `44 ↦ "%2C"`. -/
def percentByte (b : Nat) : String :=
  "%" ++ String.singleton (hexDigit (b / 16)) ++ String.singleton (hexDigit (b % 16))

/-- The UTF-8 bytes of a scalar value. -/
def utf8Bytes (c : Char) : List Nat :=
  let n := c.toNat
  if n < 0x80 then [n]
  else if n < 0x800 then [0xC0 + n / 0x40, 0x80 + n % 0x40]
  else if n < 0x10000 then
    [0xE0 + n / 0x1000, 0x80 + (n / 0x40) % 0x40, 0x80 + n % 0x40]
  else
    [0xF0 + n / 0x40000, 0x80 + (n / 0x1000) % 0x40, 0x80 + (n / 0x40) % 0x40,
     0x80 + n % 0x40]

/-- Characters `encodeURIComponent` leaves unescaped:
`A–Z a–z 0–9 - _ . ! ~ * ' ( )`. -/
def uriUnreserved (c : Char) : Bool :=
  ('A' ≤ c && c ≤ 'Z') || ('a' ≤ c && c ≤ 'z') || ('0' ≤ c && c ≤ '9') ||
    c == '-' || c == '_' || c == '.' || c == '!' || c == '~' || c == '*' ||
    c == '\'' || c == '(' || c == ')'

/-- JavaScript `encodeURIComponent`: unreserved characters pass through,
every other character is percent-encoded byte-wise in UTF-8. -/
def encodeURIComponent (s : String) : String :=
  s.data.foldl
    (fun acc c =>
      acc ++ if uriUnreserved c then String.singleton c
             else String.join ((utf8Bytes c).map percentByte))
    ""

/-- The query-string builder `buildQs` (client.ts 612–616): drop entries
whose value is `undefined`; if nothing remains return `""`; otherwise join
`key=encodeURIComponent(String(value))` with `&` after a `?`. -/
def buildQs (params : List (String × Option QsVal)) : String :=
  let entries := params.filterMap (fun p => p.2.map (fun v => (p.1, v)))
  if entries.isEmpty then ""
  else
    "?" ++ String.intercalate "&"
      (entries.map (fun e => e.1 ++ "=" ++ encodeURIComponent (qsValToString e.2)))

/-! ## Client construction (client.ts 553–573) -/

/-- The constructor argument `TrackfusionClientConfig` (client.ts 12–16). -/
structure TrackfusionClientConfig where
  apiKey : String
  baseUrl : String
  timeoutMs : Option Nat

/-- The private fields of a constructed `TrackfusionClient`. -/
structure ClientState where
  apiKey : String
  baseUrl : String
  timeoutMs : Nat

/-- JavaScript `s.replace(/\/$/, '')`: removes the final character exactly
when it is a `/` (at most one trailing slash is stripped). -/
def stripTrailingSlash (s : String) : String :=
  if s.data.getLast? = some '/' then String.mk s.data.dropLast else s

/-- Whether a string's last character is `/`. -/
def endsWithSlash (s : String) : Bool :=
  s.data.getLast? == some '/'

/-- The `TrackfusionClient` constructor (client.ts 558–562): keep the key,
strip one trailing slash from the base URL, default the timeout to
`DEFAULT_TIMEOUT_MS` via `??`. -/
def mkClient (c : TrackfusionClientConfig) : ClientState :=
  ⟨c.apiKey, stripTrailingSlash c.baseUrl, c.timeoutMs.getD DEFAULT_TIMEOUT_MS⟩

/-- The outgoing URL of an operation with relative path `path`:
`const url = baseUrl + path` (client.ts line 565); every façade method
delegates to `request(path)` with the path it built. -/
def requestUrl (cl : ClientState) (path : String) : String :=
  cl.baseUrl ++ path

/-! ## Update (PATCH) body serialization (`updateTask`, client.ts 645–651)

`updateTask` sends `body: JSON.stringify(input)` for an `UpdateTaskInput`.
`JSON.stringify` omits properties whose value is `undefined` and serializes
`null` as JSON `null`.  A field of TypeScript type `T | undefined` is
modelled as `Option`; the `dueDate` field of type `string | null | undefined`
is modelled with the three-valued `JsOpt`.  The body is modelled as the JSON
object it serializes to, fields in declaration order. -/

/-- Tri-state of a JavaScript property that may be absent, `null`, or set. -/
inductive JsOpt (α : Type) where
  | unset : JsOpt α
  | jnull : JsOpt α
  | val : α → JsOpt α

/-- A task tag `{ tagId, name, color }` (client.ts line 66). -/
structure TaskTag where
  tagId : String
  name : String
  color : String

/-- The `UpdateTaskInput` interface (client.ts 61–69): every field optional,
`dueDate` additionally nullable. -/
structure UpdateTaskInput where
  title : Option String
  description : Option String
  status : Option String
  priority : Option String
  tags : Option (List TaskTag)
  order : Option Int
  dueDate : JsOpt String

/-- Serializes one optional property as `JSON.stringify` does: an
`undefined` field contributes no key. -/
def optField {α : Type} (k : String) (f : α → JsValue) : Option α → List (String × JsValue)
  | none => []
  | some v => [(k, f v)]

/-- Serializes one tri-state property as `JSON.stringify` does: absent
contributes no key, `null` contributes the key with JSON `null`. -/
def jsOptField {α : Type} (k : String) (f : α → JsValue) : JsOpt α → List (String × JsValue)
  | .unset => []
  | .jnull => [(k, JsValue.null)]
  | .val v => [(k, f v)]

/-- A tag as it serializes into the body. -/
def serializeTag (t : TaskTag) : JsValue :=
  .obj [("tagId", .str t.tagId), ("name", .str t.name), ("color", .str t.color)]

/-- The JSON object `JSON.stringify(input)` produces for the `updateTask`
PATCH body (client.ts 645–651). -/
def serializeUpdateTaskInput (i : UpdateTaskInput) : JsValue :=
  .obj (optField "title" JsValue.str i.title ++
    optField "description" JsValue.str i.description ++
    optField "status" JsValue.str i.status ++
    optField "priority" JsValue.str i.priority ++
    optField "tags" (fun ts => .arr (ts.map serializeTag)) i.tags ++
    optField "order" JsValue.num i.order ++
    jsOptField "dueDate" JsValue.str i.dueDate)

/-! ## Claim theorems -/

/-- C1: a 503 response triggers at most one retry after a fixed 2000 ms
delay — a `[503, 200-range]` response sequence performs exactly 2 network
attempts and returns the parsed JSON body of the success response, while a
`[503, 503]` sequence performs exactly 2 attempts and fails with the error
info derived from the second 503's own body and status text (the last
permitted attempt's 503 is never retried again, whatever further outcomes
the script would offer). -/
theorem c1_retry_503_exactly_once
    (st1 : String) (b1 : BodyRead) :
    (∀ (s : Nat) (st2 : String) (j : JsValue) (rest : List FetchOutcome),
        200 ≤ s → s < 300 →
        request (.http 503 st1 b1 :: .http s st2 (.parsed j) :: rest) =
          ⟨.success j, 2, RETRY_DELAY_MS⟩) ∧
    (∀ (st2 : String) (b2 : BodyRead) (rest : List FetchOutcome),
        request (.http 503 st1 b1 :: .http 503 st2 b2 :: rest) =
          ⟨.failure "Error" (httpErrorMessage 503 st2 b2), 2, RETRY_DELAY_MS⟩) := by
  constructor
  · intro s st2 j rest h2 h3
    have hs : s ≠ 503 := by omega
    simp [request, requestAux, tryAttempt, bump, MAX_RETRIES, h2, h3, hs]
  · intro st2 b2 rest
    simp [request, requestAux, tryAttempt, bump, retryableCatch, MAX_RETRIES]

/-- Witness for C1 at the concrete scripts `[503, 200]` and `[503, 503]`. -/
theorem c1_retry_503_exactly_once_witness :
    request [.http 503 "Service Unavailable" (.parsed (.obj [])),
             .http 200 "OK" (.parsed (.str "payload"))] =
      ⟨.success (.str "payload"), 2, RETRY_DELAY_MS⟩ ∧
    request [.http 503 "Service Unavailable" (.parsed (.obj [])),
             .http 503 "Service Unavailable" (.parsed (.obj [("error", .str "cold start")]))] =
      ⟨.failure "Error" "cold start", 2, RETRY_DELAY_MS⟩ := by
  have h := c1_retry_503_exactly_once "Service Unavailable" (.parsed (.obj []))
  refine ⟨h.1 200 "OK" (.str "payload") [] (by decide) (by decide), ?_⟩
  have h2 := h.2 "Service Unavailable" (.parsed (.obj [("error", .str "cold start")])) []
  simpa [httpErrorMessage, errorBodyValue, errMsgOfBody, jsGet, jsGet.lookupField,
    jsTruthy, jsToErrString] using h2

/-- C2: the claim — every non-503 non-2xx response fails after exactly 1
attempt with no retry — is contradicted by the code at the failing input
`401` with body `{"error": "ECONNREFUSED"}`: the thrown HTTP error's message
is re-classified by the substring-based retry guard as a network failure and
the call is retried (2 attempts, succeeding here), even though the inline
comment says auth failures are never retried.  An ordinary 401 whose error
message matches no network substring does fail after exactly 1 attempt with
the body's `error` field verbatim, as the claim states. -/
theorem c2_http_error_retried_when_message_matches :
    request [.http 401 "Unauthorized" (.parsed (.obj [("error", .str "ECONNREFUSED")])),
             .http 200 "OK" (.parsed (.obj []))] =
      ⟨.success (.obj []), 2, RETRY_DELAY_MS⟩ ∧
    request [.http 401 "Unauthorized" (.parsed (.obj [("error", .str "Invalid API key")])),
             .http 200 "OK" (.parsed (.obj []))] =
      ⟨.failure "Error" "Invalid API key", 1, 0⟩ := by
  exact ⟨rfl, rfl⟩

/-- C3: an attempt aborted by the timeout propagates immediately without a
retry — in the timed model, whenever the shared deadline cuts an attempt
short (at any loop counter), the call fails at once with the timeout error
after that single attempt and no delay; and in general the catch block never
retries an exception that is an abort (`name = "AbortError"`) or whose
message matches no network-failure substring, which covers the platform's
`TimeoutError` rejection. -/
theorem c3_timeout_never_retried :
    (∀ (deadline t : Nat) (o : TimedOutcome) (rest : List TimedOutcome) (attempt : Nat),
        deadline < t + o.dur →
        timedAux (o :: rest) attempt t deadline =
          ⟨.failure "TimeoutError" "The operation was aborted due to timeout", 1, 0⟩) ∧
    (∀ (name message : String) (rest : List FetchOutcome) (attempt : Nat),
        name = "AbortError" ∨
          (strIncludes message "fetch failed" = false ∧
           strIncludes message "ECONNREFUSED" = false) →
        requestAux (.exn name message :: rest) attempt =
          ⟨.failure name message, 1, 0⟩) := by
  constructor
  · intro deadline t o rest attempt h
    have hno : ¬ (t + o.dur ≤ deadline) := by omega
    simp [timedAux, effectiveOutcome, hno, timeoutExn, tryAttempt, retryableCatch,
      strIncludes, hasSubChars, hasPrefixChars]
  · intro name message rest attempt h
    rcases h with h | ⟨h1, h2⟩
    · simp [requestAux, tryAttempt, retryableCatch, h]
    · simp [requestAux, tryAttempt, retryableCatch, h1, h2]

/-- Witness for C3: a single 40000 ms attempt under a 30000 ms deadline is
aborted and not retried; an `AbortError` rejection is never retried. -/
theorem c3_timeout_never_retried_witness :
    timedAux [⟨40000, .http 200 "OK" (.parsed (.obj []))⟩] 0 0 30000 =
      ⟨.failure "TimeoutError" "The operation was aborted due to timeout", 1, 0⟩ ∧
    requestAux [.exn "AbortError" "This operation was aborted"] 0 =
      ⟨.failure "AbortError" "This operation was aborted", 1, 0⟩ := by
  exact ⟨c3_timeout_never_retried.1 30000 0 ⟨40000, .http 200 "OK" (.parsed (.obj []))⟩ []
      0 (by decide),
    c3_timeout_never_retried.2 "AbortError" "This operation was aborted" [] 0 (Or.inl rfl)⟩

/-- C7: a fetch rejection classified as a transport-level failure (message
containing `"fetch failed"` or `"ECONNREFUSED"`; an abort is not a transport
failure, so the name is not `AbortError`) is retried exactly once after the
fixed 2000 ms delay: the call succeeds with the parsed body when the second
attempt returns a 2xx, and surfaces the second attempt's failure when that
attempt rejects or returns a non-2xx response. -/
theorem c7_transport_failure_retried_once
    (name message : String) (hn : name ≠ "AbortError")
    (hm : strIncludes message "fetch failed" = true ∨
          strIncludes message "ECONNREFUSED" = true) :
    (∀ (s : Nat) (st : String) (j : JsValue) (rest : List FetchOutcome),
        200 ≤ s → s < 300 →
        request (.exn name message :: .http s st (.parsed j) :: rest) =
          ⟨.success j, 2, RETRY_DELAY_MS⟩) ∧
    (∀ (n2 m2 : String) (rest : List FetchOutcome),
        request (.exn name message :: .exn n2 m2 :: rest) =
          ⟨.failure n2 m2, 2, RETRY_DELAY_MS⟩) ∧
    (∀ (s : Nat) (st : String) (b : BodyRead) (rest : List FetchOutcome),
        ¬ (200 ≤ s ∧ s < 300) →
        request (.exn name message :: .http s st b :: rest) =
          ⟨.failure "Error" (httpErrorMessage s st b), 2, RETRY_DELAY_MS⟩) := by
  have hretry : retryableCatch name message 0 = true := by
    rcases hm with h | h <;>
      simp [retryableCatch, MAX_RETRIES, h, bne_iff_ne, hn]
  refine ⟨?_, ?_, ?_⟩
  · intro s st j rest h2 h3
    have hs : s ≠ 503 := by omega
    simp [request, requestAux, tryAttempt, bump, MAX_RETRIES, h2, h3, hs, hretry]
  · intro n2 m2 rest
    simp [request, requestAux, tryAttempt, bump, MAX_RETRIES, hretry,
      show retryableCatch n2 m2 1 = false by simp [retryableCatch, MAX_RETRIES]]
  · intro s st b rest hno
    simp [request, requestAux, tryAttempt, bump, MAX_RETRIES, hretry, hno,
      show ∀ m, retryableCatch "Error" m 1 = false by
        intro m; simp [retryableCatch, MAX_RETRIES]]

/-- Witness for C7: an `ECONNREFUSED` rejection followed by a 200 succeeds
after 2 attempts and the 2000 ms delay. -/
theorem c7_transport_failure_retried_once_witness :
    request [.exn "Error" "connect ECONNREFUSED 127.0.0.1:443",
             .http 200 "OK" (.parsed (.obj [("projects", .arr [])]))] =
      ⟨.success (.obj [("projects", .arr [])]), 2, RETRY_DELAY_MS⟩ := by
  exact (c7_transport_failure_retried_once "Error" "connect ECONNREFUSED 127.0.0.1:443"
      (by decide) (Or.inr (by decide))).1
    200 "OK" (.obj [("projects", .arr [])]) [] (by decide) (by decide)

/-- C8: a non-2xx response whose body fails to parse as JSON is treated as
having an empty body and fails with the synthesized message
`"HTTP <status>: <statusText>"` built from that same response's status and
status text — the parse failure never masks the HTTP failure.  The first
conjunct covers the immediately-failing statuses (any non-2xx other than
503, whose synthesized message matches no retry substring); the second
covers a 503 surfaced on the last permitted attempt. -/
theorem c8_parse_failure_never_masks_http_failure :
    (∀ (status : Nat) (st pn pm : String) (rest : List FetchOutcome),
        ¬ (200 ≤ status ∧ status < 300) → status ≠ 503 →
        strIncludes (httpFallback status st) "fetch failed" = false →
        strIncludes (httpFallback status st) "ECONNREFUSED" = false →
        request (.http status st (.parseError pn pm) :: rest) =
          ⟨.failure "Error" (httpFallback status st), 1, 0⟩) ∧
    (∀ (st1 st2 pn pm : String) (b1 : BodyRead) (rest : List FetchOutcome),
        request (.http 503 st1 b1 :: .http 503 st2 (.parseError pn pm) :: rest) =
          ⟨.failure "Error" (httpFallback 503 st2), 2, RETRY_DELAY_MS⟩) := by
  constructor
  · intro status st pn pm rest hno h503 hf he
    simp [request, requestAux, tryAttempt, retryableCatch, MAX_RETRIES, hno, h503,
      httpErrorMessage, errorBodyValue, errMsgOfBody, jsGet, jsGet.lookupField, hf, he]
  · intro st1 st2 pn pm b1 rest
    simp [request, requestAux, tryAttempt, bump, retryableCatch, MAX_RETRIES,
      httpErrorMessage, errorBodyValue, errMsgOfBody, jsGet, jsGet.lookupField]

/-- Witness for C8 at a 500 whose body read rejects, mirroring the repo's
own test (`HTTP 500: Internal Server Error`), and at a second-attempt 503. -/
theorem c8_parse_failure_never_masks_http_failure_witness :
    request [.http 500 "Internal Server Error" (.parseError "SyntaxError" "parse error")] =
      ⟨.failure "Error" "HTTP 500: Internal Server Error", 1, 0⟩ ∧
    request [.http 503 "Service Unavailable" (.parsed (.obj [])),
             .http 503 "Service Unavailable" (.parseError "SyntaxError" "parse error")] =
      ⟨.failure "Error" "HTTP 503: Service Unavailable", 2, RETRY_DELAY_MS⟩ := by
  constructor
  · have h := c8_parse_failure_never_masks_http_failure.1 500 "Internal Server Error"
      "SyntaxError" "parse error" [] (by omega) (by omega) (by decide) (by decide)
    simpa [httpFallback] using h
  · have h := c8_parse_failure_never_masks_http_failure.2 "Service Unavailable"
      "Service Unavailable" "SyntaxError" "parse error" (.parsed (.obj [])) []
    simpa [httpFallback] using h

/-- C10: when a non-2xx response's parsed body has an `error` field whose
value is falsy (the empty string, `null`, `false`, or `0`), the thrown
message is the synthesized `"HTTP <status>: <statusText>"` fallback, not the
field's value: the extraction `body.error || fallback` tests truthiness, not
presence. -/
theorem c10_falsy_error_field_uses_fallback :
    (∀ (body : JsValue) (status : Nat) (st : String) (v : JsValue),
        jsGet body "error" = some v → jsTruthy v = false →
        errMsgOfBody body status st = httpFallback status st) ∧
    (∀ (status : Nat) (st : String) (v : JsValue) (rest : List FetchOutcome),
        ¬ (200 ≤ status ∧ status < 300) → status ≠ 503 → jsTruthy v = false →
        strIncludes (httpFallback status st) "fetch failed" = false →
        strIncludes (httpFallback status st) "ECONNREFUSED" = false →
        request (.http status st (.parsed (.obj [("error", v)])) :: rest) =
          ⟨.failure "Error" (httpFallback status st), 1, 0⟩) := by
  constructor
  · intro body status st v hv hfalsy
    simp [errMsgOfBody, hv, hfalsy]
  · intro status st v rest hno h503 hfalsy hf he
    simp [request, requestAux, tryAttempt, retryableCatch, MAX_RETRIES, hno, h503,
      httpErrorMessage, errorBodyValue, errMsgOfBody, jsGet, jsGet.lookupField,
      hfalsy, hf, he]

/-- Witness for C10 at all four falsy shapes and a full 401 call with an
empty-string `error` field. -/
theorem c10_falsy_error_field_uses_fallback_witness :
    errMsgOfBody (.obj [("error", .str "")]) 401 "Unauthorized" = "HTTP 401: Unauthorized" ∧
    errMsgOfBody (.obj [("error", .null)]) 401 "Unauthorized" = "HTTP 401: Unauthorized" ∧
    errMsgOfBody (.obj [("error", .bool false)]) 401 "Unauthorized" = "HTTP 401: Unauthorized" ∧
    errMsgOfBody (.obj [("error", .num 0)]) 401 "Unauthorized" = "HTTP 401: Unauthorized" ∧
    request [.http 401 "Unauthorized" (.parsed (.obj [("error", .str "")]))] =
      ⟨.failure "Error" "HTTP 401: Unauthorized", 1, 0⟩ := by
  refine ⟨?_, ?_, ?_, ?_, ?_⟩
  · simpa [httpFallback] using
      c10_falsy_error_field_uses_fallback.1 (.obj [("error", .str "")]) 401 "Unauthorized"
        (.str "") (by rfl) (by decide)
  · simpa [httpFallback] using
      c10_falsy_error_field_uses_fallback.1 (.obj [("error", .null)]) 401 "Unauthorized"
        .null (by rfl) (by decide)
  · simpa [httpFallback] using
      c10_falsy_error_field_uses_fallback.1 (.obj [("error", .bool false)]) 401 "Unauthorized"
        (.bool false) (by rfl) (by decide)
  · simpa [httpFallback] using
      c10_falsy_error_field_uses_fallback.1 (.obj [("error", .num 0)]) 401 "Unauthorized"
        (.num 0) (by rfl) (by decide)
  · simpa [httpFallback] using
      c10_falsy_error_field_uses_fallback.2 401 "Unauthorized" (.str "") []
        (by omega) (by omega) (by decide) (by decide) (by decide)

/-- Field lookup skips a prefix of the field list that resolves to nothing. -/
theorem lookupField_append (l1 l2 : List (String × JsValue)) (k : String)
    (h : jsGet.lookupField l1 k = none) :
    jsGet.lookupField (l1 ++ l2) k = jsGet.lookupField l2 k := by
  induction l1 with
  | nil => simp
  | cons p rest ih =>
    obtain ⟨k', v'⟩ := p
    by_cases hk : k' = k
    · simp [jsGet.lookupField, hk] at h
    · simp [jsGet.lookupField, hk] at h ⊢
      exact ih h

/-- A serialized optional field under a different key resolves to nothing. -/
theorem lookupField_optField {α : Type} (k k' : String) (f : α → JsValue)
    (o : Option α) (h : k' ≠ k) :
    jsGet.lookupField (optField k' f o) k = none := by
  cases o <;> simp [optField, jsGet.lookupField, h]

/-- C4: in the `updateTask` PATCH body, the `dueDate` key appears with JSON
`null` exactly when the caller set the field to `null`, appears with the
string value exactly when the caller set one, and is absent exactly when the
caller left the field out — so a body with `dueDate` explicitly `null` is
never equal to one with `dueDate` omitted, whatever the other fields are. -/
theorem c4_null_vs_undefined_distinct :
    (∀ i : UpdateTaskInput,
        jsGet (serializeUpdateTaskInput i) "dueDate" =
          (match i.dueDate with
           | .unset => none
           | .jnull => some JsValue.null
           | .val s => some (JsValue.str s))) ∧
    (∀ i j : UpdateTaskInput, i.dueDate = .jnull → j.dueDate = .unset →
        serializeUpdateTaskInput i ≠ serializeUpdateTaskInput j) := by
  have key : ∀ i : UpdateTaskInput,
      jsGet (serializeUpdateTaskInput i) "dueDate" =
        (match i.dueDate with
         | .unset => none
         | .jnull => some JsValue.null
         | .val s => some (JsValue.str s)) := by
    intro i
    show jsGet.lookupField _ "dueDate" = _
    rw [List.append_assoc, List.append_assoc, List.append_assoc, List.append_assoc,
      List.append_assoc]
    rw [lookupField_append _ _ _ (lookupField_optField _ _ _ _ (by decide)),
      lookupField_append _ _ _ (lookupField_optField _ _ _ _ (by decide)),
      lookupField_append _ _ _ (lookupField_optField _ _ _ _ (by decide)),
      lookupField_append _ _ _ (lookupField_optField _ _ _ _ (by decide)),
      lookupField_append _ _ _ (lookupField_optField _ _ _ _ (by decide)),
      lookupField_append _ _ _ (lookupField_optField _ _ _ _ (by decide))]
    cases i.dueDate <;> simp [jsOptField, jsGet.lookupField]
  refine ⟨key, ?_⟩
  intro i j hi hj h
  have ki := key i
  have kj := key j
  rw [hi] at ki
  rw [hj] at kj
  rw [h, kj] at ki
  exact Option.noConfusion ki

/-- Witness for C4: bodies `{"dueDate": null}` and `{}`. -/
theorem c4_null_vs_undefined_distinct_witness :
    jsGet (serializeUpdateTaskInput ⟨none, none, none, none, none, none, .jnull⟩)
        "dueDate" = some JsValue.null ∧
    serializeUpdateTaskInput ⟨none, none, none, none, none, none, .jnull⟩ ≠
      serializeUpdateTaskInput ⟨none, none, none, none, none, none, .unset⟩ := by
  exact ⟨c4_null_vs_undefined_distinct.1 ⟨none, none, none, none, none, none, .jnull⟩,
    c4_null_vs_undefined_distinct.2 _ _ rfl rfl⟩

/-- C5: the query-string builder omits exactly the entries whose value is
`undefined` (removing such an entry anywhere in the map leaves the result
unchanged), keeps empty-string, `false`, and `0` values, percent-encodes
each value individually, and preserves insertion order without sorting: in
particular `{a: "x", b: undefined, c: 0}` builds exactly `"?a=x&c=0"`. -/
theorem c5_buildQs_omits_undefined_only :
    (∀ (l1 l2 : List (String × Option QsVal)) (k : String),
        buildQs (l1 ++ (k, none) :: l2) = buildQs (l1 ++ l2)) ∧
    buildQs [("a", some (.s "x")), ("b", none), ("c", some (.n 0))] = "?a=x&c=0" ∧
    buildQs [("a", some (.s ""))] = "?a=" ∧
    buildQs [("flag", some (.b false))] = "?flag=false" ∧
    buildQs [("status", some (.s "todo,in-progress"))] = "?status=todo%2Cin-progress" ∧
    buildQs [("b", some (.s "y")), ("a", some (.s "x"))] = "?b=y&a=x" := by
  refine ⟨?_, by decide, by decide, by decide, by decide, by decide⟩
  intro l1 l2 k
  have hfm : List.filterMap (fun p => Option.map (fun v => (p.1, v)) p.2)
        (l1 ++ (k, none) :: l2) =
      List.filterMap (fun p => Option.map (fun v => (p.1, v)) p.2) (l1 ++ l2) := by
    simp [List.filterMap_append, List.filterMap_cons]
  simp only [buildQs, hfm]

/-- C6 counterexample: the claim quantifies over *every* base URL string
`s`, but for `s = "https://x/"` — already slash-terminated — the client
built from `s ++ "/"` and the client built from `s` produce different URLs
for the same operation, because construction strips exactly one trailing
slash. -/
theorem c6_counterexample_double_slash :
    requestUrl (mkClient ⟨"key", "https://x/" ++ "/", none⟩) "/projects" ≠
      requestUrl (mkClient ⟨"key", "https://x/", none⟩) "/projects" := by
  decide

/-- C6 (amended): for every base URL `s` that does not itself end in a
slash, a client constructed from `s ++ "/"` and one constructed from `s`
produce identical outgoing request URLs for every operation path
(construction strips exactly one trailing slash), and omitting `timeoutMs`
defaults it to 30000. -/
theorem c6_config_normalization
    (k s path : String) (t : Option Nat) (h : endsWithSlash s = false) :
    requestUrl (mkClient ⟨k, s ++ "/", t⟩) path = requestUrl (mkClient ⟨k, s, t⟩) path ∧
    (mkClient ⟨k, s, none⟩).timeoutMs = 30000 := by
  have hdata : (s ++ "/").data = s.data ++ ['/'] := String.data_append s "/"
  have hlast : (s ++ "/").data.getLast? = some '/' := by
    rw [hdata]
    exact List.getLast?_concat _
  have hne : ¬ s.data.getLast? = some '/' := by
    simpa [endsWithSlash] using h
  have hstrip1 : stripTrailingSlash (s ++ "/") = s := by
    rw [stripTrailingSlash, if_pos hlast, hdata, List.dropLast_concat]
  have hstrip2 : stripTrailingSlash s = s := by
    rw [stripTrailingSlash, if_neg hne]
  constructor
  · show stripTrailingSlash (s ++ "/") ++ path = stripTrailingSlash s ++ path
    rw [hstrip1, hstrip2]
  · rfl

/-- Witness for C6 at the spec's own instance `"https://x"`. -/
theorem c6_config_normalization_witness :
    requestUrl (mkClient ⟨"key", "https://x" ++ "/", none⟩) "/projects" =
      requestUrl (mkClient ⟨"key", "https://x", none⟩) "/projects" ∧
    (mkClient ⟨"key", "https://x", none⟩).timeoutMs = 30000 := by
  exact c6_config_normalization "key" "https://x" "/projects" none (by decide)

/-- C9 counterexample: with `timeoutMs = 30000`, a 29000 ms first attempt
answering 503 followed by a 500 ms retry attempt — each individually well
within `timeoutMs` — is aborted on the retry, because the single
`AbortSignal.timeout` deadline created before the loop has passed by the
time the retry starts (29000 + 2000 > 30000 remains before it even runs).
Under the per-attempt-budget semantics the claim describes, the same
scripted call would succeed. -/
theorem c9_counterexample_shared_deadline :
    timedRequest 30000
        [⟨29000, .http 503 "Service Unavailable" (.parsed (.obj []))⟩,
         ⟨500, .http 200 "OK" (.parsed (.obj []))⟩] =
      ⟨.failure "TimeoutError" "The operation was aborted due to timeout", 2,
        RETRY_DELAY_MS⟩ ∧
    perAttemptRequest 30000
        [⟨29000, .http 503 "Service Unavailable" (.parsed (.obj []))⟩,
         ⟨500, .http 200 "OK" (.parsed (.obj []))⟩] =
      ⟨.success (.obj []), 2, RETRY_DELAY_MS⟩ := by
  exact ⟨rfl, rfl⟩

/-- C9 (amended): one timeout budget of `timeoutMs` covers the whole call,
not each attempt: the `AbortSignal.timeout` deadline is fixed once before
the first attempt, so the first attempt is aborted exactly when its own
duration exceeds `timeoutMs`, while after a 503 first attempt of duration
`d1` the retry attempt of duration `d2` is aborted exactly when
`d1 + 2000 + d2` exceeds `timeoutMs` — the retry only receives what remains
of the shared budget after the first attempt and the fixed delay. -/
theorem c9_single_shared_timeout :
    (∀ (timeoutMs d : Nat) (o : FetchOutcome) (rest : List TimedOutcome),
        timeoutMs < d →
        timedRequest timeoutMs (⟨d, o⟩ :: rest) =
          ⟨.failure "TimeoutError" "The operation was aborted due to timeout", 1, 0⟩) ∧
    (∀ (timeoutMs d1 d2 : Nat) (st1 : String) (b1 : BodyRead) (o2 : FetchOutcome)
        (rest : List TimedOutcome),
        d1 ≤ timeoutMs → timeoutMs < d1 + RETRY_DELAY_MS + d2 →
        timedRequest timeoutMs (⟨d1, .http 503 st1 b1⟩ :: ⟨d2, o2⟩ :: rest) =
          ⟨.failure "TimeoutError" "The operation was aborted due to timeout", 2,
            RETRY_DELAY_MS⟩) ∧
    (∀ (timeoutMs d1 d2 s : Nat) (st1 st2 : String) (b1 : BodyRead) (j : JsValue)
        (rest : List TimedOutcome),
        d1 ≤ timeoutMs → d1 + RETRY_DELAY_MS + d2 ≤ timeoutMs →
        200 ≤ s → s < 300 →
        timedRequest timeoutMs (⟨d1, .http 503 st1 b1⟩ :: ⟨d2, .http s st2 (.parsed j)⟩ :: rest) =
          ⟨.success j, 2, RETRY_DELAY_MS⟩) := by
  refine ⟨?_, ?_, ?_⟩
  · intro timeoutMs d o rest hd
    have hno : ¬ d ≤ timeoutMs := by omega
    simp [timedRequest, timedAux, effectiveOutcome, hno, timeoutExn, tryAttempt,
      retryableCatch, strIncludes, hasSubChars, hasPrefixChars]
  · intro timeoutMs d1 d2 st1 b1 o2 rest h1 h2
    have hout : ¬ (d1 + RETRY_DELAY_MS + d2 ≤ timeoutMs) := by omega
    simp [timedRequest, timedAux, effectiveOutcome, h1, hout, timeoutExn, tryAttempt,
      bump, MAX_RETRIES, retryableCatch, strIncludes, hasSubChars, hasPrefixChars]
  · intro timeoutMs d1 d2 s st1 st2 b1 j rest h1 h2 h3 h4
    have hs : s ≠ 503 := by omega
    simp [timedRequest, timedAux, effectiveOutcome, h1, h2, tryAttempt, bump,
      MAX_RETRIES, h3, h4, hs]

/-- Witness for C9 at `timeoutMs = 30000`: a 40000 ms first attempt is
aborted; a 29000 ms 503 then a 500 ms retry is aborted on the retry; a
1000 ms 503 then a 500 ms 200 succeeds. -/
theorem c9_single_shared_timeout_witness :
    timedRequest 30000 [⟨40000, .http 200 "OK" (.parsed (.obj []))⟩] =
      ⟨.failure "TimeoutError" "The operation was aborted due to timeout", 1, 0⟩ ∧
    timedRequest 30000
        [⟨29000, .http 503 "Service Unavailable" (.parsed (.obj []))⟩,
         ⟨500, .http 200 "OK" (.parsed (.num 1))⟩] =
      ⟨.failure "TimeoutError" "The operation was aborted due to timeout", 2,
        RETRY_DELAY_MS⟩ ∧
    timedRequest 30000
        [⟨1000, .http 503 "Service Unavailable" (.parsed (.obj []))⟩,
         ⟨500, .http 200 "OK" (.parsed (.num 1))⟩] =
      ⟨.success (.num 1), 2, RETRY_DELAY_MS⟩ := by
  exact ⟨c9_single_shared_timeout.1 30000 40000 (.http 200 "OK" (.parsed (.obj []))) []
      (by decide),
    c9_single_shared_timeout.2.1 30000 29000 500 "Service Unavailable" (.parsed (.obj []))
      (.http 200 "OK" (.parsed (.num 1))) [] (by decide) (by decide),
    c9_single_shared_timeout.2.2 30000 1000 500 200 "Service Unavailable" "OK"
      (.parsed (.obj [])) (.num 1) [] (by decide) (by decide) (by decide) (by decide)⟩

end TrackFusion
